import Mathlib

/-!
Verification of the SimpleLabelDataExporter core mechanisms:
the one-time download-token lifecycle (Issue / Redeem) and the
unique-barcode allocator, as a shallow embedding in Lean 4.

Sources embedded:
- `app/routes/app._index.jsx` — the `action` entry point (export / barcode
  dispatch, token issuance).
- `DEPLOYMENT.md` (embedded barcode utility module) —
  `generateRandomBarcode`, `checkBarcodeExists`, `generateUniqueBarcode`.
- The redemption route (`download.jsx`) is not present in the repository
  snapshot; its behaviour is modelled from the specification where noted.
-/

namespace LabelExporter

/-- One row of the `DownloadToken` table
(prisma migration `20260126135810_add_download_tokens`):
`token` (unique), `shop`, `data` (the serialized export payload),
`fileName`, `createdAt` (milliseconds since epoch). -/
structure DownloadToken where
  token : String
  shop : String
  data : String
  fileName : String
  createdAt : Nat
deriving DecidableEq, Repr

/-- The token store: the `DownloadToken` table as a list of rows.
The `token` column carries a unique index, so lookup by token returns
the first (only) matching row. -/
def Store := List DownloadToken

/-- Point lookup by the unique `token` column (prisma `findUnique`). -/
def findToken (s : List DownloadToken) (tok : String) : Option DownloadToken :=
  s.find? (fun r => r.token == tok)

/-- Delete the row(s) whose `token` column equals `tok` (prisma `delete`). -/
def deleteToken (s : List DownloadToken) (tok : String) : List DownloadToken :=
  s.filter (fun r => !(r.token == tok))

/-- Redemption-time failure classes from the spec error taxonomy. -/
inductive RedeemError where
  | notFound
  | expired
deriving DecidableEq, Repr

/-- The fixed expiry window: 15 minutes, in milliseconds. -/
def expiryMs : Nat := 15 * 60 * 1000

/-- Modelled from the spec: the redemption route (`download.jsx`) is not in
the repository snapshot, only described by `MOBILE_DOWNLOAD_FIX` and §4.1 of
the design.  `Redeem(token)`: look up the row by token; if absent fail with
`NotFoundError`; if present and older than the 15-minute window, delete the
row and fail with `ExpiredError`; otherwise delete the row and return
`(payload, fileName)`.  The lookup-and-delete is one atomic step of the
model, as the spec mandates (atomic take / delete-on-read). -/
def redeem (s : List DownloadToken) (tok : String) (now : Nat) :
    Except RedeemError (String × String) × List DownloadToken :=
  match findToken s tok with
  | none => (Except.error RedeemError.notFound, s)
  | some row =>
      if expiryMs < now - row.createdAt then
        (Except.error RedeemError.expired, deleteToken s tok)
      else
        (Except.ok (row.data, row.fileName), deleteToken s tok)

/-- What an external caller of the redemption endpoint can observe:
either the served artifact, or one undifferentiated failure (the route maps
both `NotFoundError` and `ExpiredError` to the same client-error response). -/
inductive ExternalOutcome where
  | success (payload fileName : String)
  | failure
deriving DecidableEq, Repr

/-- Modelled from the spec: the externally observable outcome of a redemption
result — both failure classes collapse to the same observable failure. -/
def externalOutcome : Except RedeemError (String × String) → ExternalOutcome
  | Except.ok pf => ExternalOutcome.success pf.1 pf.2
  | Except.error _ => ExternalOutcome.failure

/-- A sequence of `redeem` calls for one token, applied in order
(each call is atomic, so any concurrent execution is some such order). -/
def redeemSeq (tok : String) :
    List Nat → List DownloadToken →
      List (Except RedeemError (String × String)) × List DownloadToken
  | [], s => ([], s)
  | now :: rest, s =>
      let step := redeem s tok now
      let next := redeemSeq tok rest step.2
      (step.1 :: next.1, next.2)

/-- Whether a redemption result is a success. -/
def isOkResult : Except RedeemError (String × String) → Bool
  | Except.ok _ => true
  | Except.error _ => false

/-- The number of successful redemptions in a list of results. -/
def countSuccesses (rs : List (Except RedeemError (String × String))) : Nat :=
  (rs.filter isOkResult).length

theorem findToken_deleteToken (s : List DownloadToken) (tok : String) :
    findToken (deleteToken s tok) tok = none := by
  simp only [findToken, deleteToken]
  rw [List.find?_eq_none]
  intro r hr
  have h := (List.mem_filter.mp hr).2
  simpa using h

theorem redeem_of_absent (s : List DownloadToken) (tok : String) (now : Nat)
    (h : findToken s tok = none) :
    redeem s tok now = (Except.error RedeemError.notFound, s) := by
  simp [redeem, h]

theorem redeem_success_absent_after (s : List DownloadToken) (tok : String) (now : Nat)
    (v : String × String) (h : (redeem s tok now).1 = Except.ok v) :
    findToken (redeem s tok now).2 tok = none := by
  unfold redeem at h ⊢
  cases hf : findToken s tok with
  | none => simp [hf] at h
  | some row =>
      by_cases hexp : expiryMs < now - row.createdAt
      · simp [hf, hexp] at h
      · simpa [hf, hexp] using findToken_deleteToken s tok

theorem redeemSeq_absent (tok : String) (times : List Nat) (s : List DownloadToken)
    (h : findToken s tok = none) :
    countSuccesses (redeemSeq tok times s).1 = 0 := by
  induction times generalizing s with
  | nil => rfl
  | cons now rest ih =>
      have hstep := redeem_of_absent s tok now h
      simp [redeemSeq, hstep, countSuccesses, isOkResult]
      simpa [countSuccesses] using ih s h

/-- C1: For every token, at most one `Redeem` call with that token returns
success: across any sequence of redemption attempts (covering any concurrent
interleaving, since each redemption in the model — as the spec mandates — is
an atomic take), at most one returns the payload; every other attempt fails. -/
theorem redeem_at_most_one_success (tok : String) (times : List Nat)
    (s : List DownloadToken) :
    countSuccesses (redeemSeq tok times s).1 ≤ 1 := by
  induction times generalizing s with
  | nil => simp [redeemSeq, countSuccesses]
  | cons now rest ih =>
      have hcons : (redeemSeq tok (now :: rest) s).1 =
          (redeem s tok now).1 :: (redeemSeq tok rest (redeem s tok now).2).1 := rfl
      cases hstep : (redeem s tok now).1 with
      | ok v =>
          have habs : findToken (redeem s tok now).2 tok = none :=
            redeem_success_absent_after s tok now v hstep
          have hrest := redeemSeq_absent tok rest (redeem s tok now).2 habs
          rw [hcons, hstep]
          simp [countSuccesses, List.filter_cons, isOkResult] at hrest ⊢
          exact hrest
      | error e =>
          have hrest := ih (redeem s tok now).2
          rw [hcons, hstep]
          simp only [countSuccesses, List.filter_cons, isOkResult] at hrest ⊢
          exact hrest

/-- C3: A token whose `createdAt` is more than 15 minutes before the call time
is redeemed as an `ExpiredError`-class failure, its row is deleted (it no
longer exists in the store afterward), and any subsequent `Redeem` with the
same token fails with `NotFoundError`. -/
theorem redeem_expired_deletes_row (s : List DownloadToken) (tok : String)
    (now : Nat) (row : DownloadToken)
    (hfind : findToken s tok = some row)
    (hage : expiryMs < now - row.createdAt) :
    redeem s tok now = (Except.error RedeemError.expired, deleteToken s tok) ∧
    findToken (redeem s tok now).2 tok = none ∧
    ∀ now2, (redeem (redeem s tok now).2 tok now2).1 =
      Except.error RedeemError.notFound := by
  have heq : redeem s tok now = (Except.error RedeemError.expired, deleteToken s tok) := by
    simp [redeem, hfind, hage]
  refine ⟨heq, ?_, ?_⟩
  · rw [heq]
    exact findToken_deleteToken s tok
  · intro now2
    rw [heq]
    simp [redeem, findToken_deleteToken s tok]

/-- Witness for C3: a concrete store with one 16-minute-old row. -/
theorem redeem_expired_deletes_row_witness :
    (redeem [⟨"t1", "shop1", "[]", "f.xlsx", 0⟩] "t1" 960000 =
      (Except.error RedeemError.expired,
        deleteToken [⟨"t1", "shop1", "[]", "f.xlsx", 0⟩] "t1")) ∧
    findToken (redeem [⟨"t1", "shop1", "[]", "f.xlsx", 0⟩] "t1" 960000).2 "t1" = none ∧
    ∀ now2, (redeem (redeem [⟨"t1", "shop1", "[]", "f.xlsx", 0⟩] "t1" 960000).2
      "t1" now2).1 = Except.error RedeemError.notFound :=
  redeem_expired_deletes_row [⟨"t1", "shop1", "[]", "f.xlsx", 0⟩] "t1" 960000
    ⟨"t1", "shop1", "[]", "f.xlsx", 0⟩ (by decide) (by decide)

/-- C8: an unknown (never-issued or already-consumed) token and an expired
token produce the same externally observable outcome class: both redemption
attempts are observed as the one undifferentiated failure. -/
theorem redeem_unknown_indistinguishable_from_expired
    (s1 s2 : List DownloadToken) (t1 t2 : String) (now1 now2 : Nat)
    (row : DownloadToken)
    (h1 : findToken s1 t1 = none)
    (h2 : findToken s2 t2 = some row)
    (hage : expiryMs < now2 - row.createdAt) :
    externalOutcome (redeem s1 t1 now1).1 = externalOutcome (redeem s2 t2 now2).1 ∧
    externalOutcome (redeem s1 t1 now1).1 = ExternalOutcome.failure := by
  constructor
  · simp [redeem, h1, h2, hage, externalOutcome]
  · simp [redeem, h1, externalOutcome]

/-- Witness for C8: empty store with a made-up token vs a 16-minute-old row. -/
theorem redeem_unknown_indistinguishable_from_expired_witness :
    externalOutcome (redeem [] "not-a-real-token" 5).1 =
      externalOutcome (redeem [⟨"t2", "shop1", "[]", "f.xlsx", 0⟩] "t2" 960000).1 ∧
    externalOutcome (redeem [] "not-a-real-token" 5).1 = ExternalOutcome.failure :=
  redeem_unknown_indistinguishable_from_expired [] [⟨"t2", "shop1", "[]", "f.xlsx", 0⟩]
    "not-a-real-token" "t2" 5 960000 ⟨"t2", "shop1", "[]", "f.xlsx", 0⟩
    (by decide) (by decide) (by decide)

/-! ### Unique barcode allocator (from the barcode utility module) -/

/-- `generateRandomBarcode` constants: `const min = 10000000`. -/
def barcodeMin : Int := 10000000

/-- `generateRandomBarcode` constants: `const max = 99999999`. -/
def barcodeMax : Int := 99999999

/-- `generateRandomBarcode()`:
`Math.floor(Math.random() * (max - min + 1)) + min`, with the random draw
`r` (a value in `[0,1)`) made explicit and modelled in exact arithmetic. -/
def generateRandomBarcode (r : ℚ) : Int :=
  ⌊r * ((barcodeMax : ℚ) - (barcodeMin : ℚ) + 1)⌋ + barcodeMin

/-- The candidate string used on attempt `i`:
`generateRandomBarcode().toString()` for the random draw of that attempt. -/
def candidateString (draws : Nat → ℚ) (i : Nat) : String :=
  (generateRandomBarcode (draws i)).toNat.repr

/-- The exhaustion error message thrown by `generateUniqueBarcode`. -/
def exhaustedMessage (maxAttempts : Nat) : String :=
  "Unable to generate unique barcode after " ++ Nat.repr maxAttempts ++
    " attempts. Please try again or contact support."

/-- The `for (let attempt = 0; attempt < maxAttempts; attempt++)` loop of
`generateUniqueBarcode`, from iteration `attempt` on.  `draws` supplies the
random draw of each attempt; `check` is the external `checkBarcodeExists`
collaborator (one call per attempt, may fail).  Returns the result together
with the number of existence checks performed. -/
def generateUniqueBarcodeAux (draws : Nat → ℚ)
    (check : Nat → String → Except String Bool)
    (maxAttempts attempt : Nat) : Except String String × Nat :=
  if h : attempt < maxAttempts then
    let barcode := candidateString draws attempt
    match check attempt barcode with
    | Except.error e => (Except.error e, 1)
    | Except.ok false => (Except.ok barcode, 1)
    | Except.ok true =>
        let next := generateUniqueBarcodeAux draws check maxAttempts (attempt + 1)
        (next.1, next.2 + 1)
  else
    (Except.error (exhaustedMessage maxAttempts), 0)
termination_by maxAttempts - attempt
decreasing_by omega

/-- `generateUniqueBarcode(admin, maxAttempts)`: run the retry loop from
attempt 0. -/
def generateUniqueBarcode (draws : Nat → ℚ)
    (check : Nat → String → Except String Bool)
    (maxAttempts : Nat) : Except String String × Nat :=
  generateUniqueBarcodeAux draws check maxAttempts 0

/-- The default retry budget: `maxAttempts = 10` in the source signature. -/
def defaultMaxAttempts : Nat := 10

/-- The allocation operation as the caller (`action`, `generateBarcode`
branch) runs it: call `generateUniqueBarcode`; only on success perform the
single catalog write (`UPDATE_VARIANT_BARCODE_MUTATION`).  Returns
(result, existence checks performed, catalog writes performed). -/
def allocate (draws : Nat → ℚ) (check : Nat → String → Except String Bool)
    (maxAttempts : Nat) : Except String String × Nat × Nat :=
  match generateUniqueBarcode draws check maxAttempts with
  | (Except.ok bc, n) => (Except.ok bc, n, 1)
  | (Except.error e, n) => (Except.error e, n, 0)

theorem generateUniqueBarcodeAux_all_collide (draws : Nat → ℚ)
    (check : Nat → String → Except String Bool)
    (hc : ∀ i b, check i b = Except.ok true) :
    ∀ fuel attempt maxAttempts, maxAttempts - attempt = fuel →
      generateUniqueBarcodeAux draws check maxAttempts attempt =
        (Except.error (exhaustedMessage maxAttempts), fuel) := by
  intro fuel
  induction fuel with
  | zero =>
      intro attempt maxAttempts hf
      have h : ¬ attempt < maxAttempts := by omega
      unfold generateUniqueBarcodeAux
      simp [h]
  | succ n ih =>
      intro attempt maxAttempts hf
      have h : attempt < maxAttempts := by omega
      have hrec := ih (attempt + 1) maxAttempts (by omega)
      unfold generateUniqueBarcodeAux
      simp [h, hc, hrec]

/-- C4: when the existence check reports a collision on every attempt,
`generateUniqueBarcode` performs exactly `maxAttempts` existence checks,
performs zero catalog writes, and fails with the allocation-exhausted error;
the default attempt budget is 10. -/
theorem allocate_exhausted_after_maxAttempts (draws : Nat → ℚ)
    (check : Nat → String → Except String Bool) (maxAttempts : Nat)
    (hpos : 1 ≤ maxAttempts)
    (hc : ∀ i b, check i b = Except.ok true) :
    allocate draws check maxAttempts =
      (Except.error (exhaustedMessage maxAttempts), maxAttempts, 0) ∧
    defaultMaxAttempts = 10 := by
  have h := generateUniqueBarcodeAux_all_collide draws check hc maxAttempts 0
    maxAttempts (by omega)
  constructor
  · simp [allocate, generateUniqueBarcode, h]
  · rfl

/-- Witness for C4: an always-colliding stub with a budget of 3. -/
theorem allocate_exhausted_after_maxAttempts_witness :
    1 ≤ 3 ∧
    (allocate (fun _ => 0) (fun _ _ => Except.ok true) 3 =
      (Except.error (exhaustedMessage 3), 3, 0) ∧
     defaultMaxAttempts = 10) :=
  ⟨by decide,
   allocate_exhausted_after_maxAttempts (fun _ => 0) (fun _ _ => Except.ok true) 3
     (by decide) (fun _ _ => rfl)⟩

theorem generateUniqueBarcodeAux_first_clean (draws : Nat → ℚ)
    (check : Nat → String → Except String Bool) (N maxAttempts : Nat)
    (hN : 1 ≤ N) (hNm : N ≤ maxAttempts)
    (hc : ∀ i, i < N - 1 → ∀ b, check i b = Except.ok true)
    (hclean : ∀ b, check (N - 1) b = Except.ok false) :
    ∀ fuel attempt, attempt + fuel = N - 1 →
      generateUniqueBarcodeAux draws check maxAttempts attempt =
        (Except.ok (candidateString draws (N - 1)), N - attempt) := by
  intro fuel
  induction fuel with
  | zero =>
      intro attempt hf
      have h : attempt < maxAttempts := by omega
      have hatt : attempt = N - 1 := by omega
      unfold generateUniqueBarcodeAux
      subst hatt
      simp [h, hclean]
      omega
  | succ n ih =>
      intro attempt hf
      have h : attempt < maxAttempts := by omega
      have hcoll := hc attempt (by omega)
      have hrec := ih (attempt + 1) (by omega)
      unfold generateUniqueBarcodeAux
      simp [h, hcoll, hrec]
      omega

/-- C5: if the existence check reports a collision for the first N−1
candidates and no collision for the Nth (1 ≤ N ≤ maxAttempts), allocation
succeeds with exactly the Nth generated candidate, after exactly N existence
checks (and the one catalog write of the success path). -/
theorem allocate_succeeds_on_attempt_N (draws : Nat → ℚ)
    (check : Nat → String → Except String Bool) (N maxAttempts : Nat)
    (hN : 1 ≤ N) (hNm : N ≤ maxAttempts)
    (hc : ∀ i, i < N - 1 → ∀ b, check i b = Except.ok true)
    (hclean : ∀ b, check (N - 1) b = Except.ok false) :
    allocate draws check maxAttempts =
      (Except.ok (candidateString draws (N - 1)), N, 1) := by
  have h := generateUniqueBarcodeAux_first_clean draws check N maxAttempts hN hNm
    hc hclean (N - 1) 0 (by omega)
  simp [allocate, generateUniqueBarcode, h]

/-- Witness for C5: N = 2 with a budget of 10; the first check collides, the
second is clean, and the second candidate (draw 1/3 ↦ 40000000) is returned
after two checks. -/
theorem allocate_succeeds_on_attempt_N_witness :
    1 ≤ 2 ∧ 2 ≤ 10 ∧
    allocate (fun _ => 1/3) (fun i _ => if i = 0 then Except.ok true else Except.ok false) 10 =
      (Except.ok (candidateString (fun _ => 1/3) 1), 2, 1) :=
  ⟨by decide, by decide,
   allocate_succeeds_on_attempt_N (fun _ => 1/3)
     (fun i _ => if i = 0 then Except.ok true else Except.ok false) 2 10
     (by decide) (by decide)
     (fun i hi b => by interval_cases i <;> simp)
     (fun b => by simp)⟩

/-- C6: for every value of the underlying random draw in `[0,1)` (modelled in
exact arithmetic), the generated candidate is an integer in the inclusive
range `[10000000, 99999999]`; the persisted value renders exactly that
integer (the `Int → Nat` step of the rendering loses nothing), and its
decimal expansion has exactly 8 digits whose leading digit is nonzero. -/
theorem generateRandomBarcode_range (r : ℚ) (h0 : 0 ≤ r) (h1 : r < 1) :
    barcodeMin ≤ generateRandomBarcode r ∧
    generateRandomBarcode r ≤ barcodeMax ∧
    ((generateRandomBarcode r).toNat : Int) = generateRandomBarcode r ∧
    (Nat.digits 10 (generateRandomBarcode r).toNat).length = 8 ∧
    (Nat.digits 10 (generateRandomBarcode r).toNat).getLast? ≠ some 0 := by
  have hspan : ((barcodeMax : ℚ) - (barcodeMin : ℚ) + 1) = 90000000 := by
    norm_num [barcodeMin, barcodeMax]
  have hfl0 : (0 : Int) ≤ ⌊r * ((barcodeMax : ℚ) - (barcodeMin : ℚ) + 1)⌋ := by
    apply Int.floor_nonneg.mpr
    rw [hspan]
    positivity
  have hflub : ⌊r * ((barcodeMax : ℚ) - (barcodeMin : ℚ) + 1)⌋ < 90000000 := by
    apply Int.floor_lt.mpr
    rw [hspan]
    calc r * 90000000 < 1 * 90000000 := by
          exact mul_lt_mul_of_pos_right h1 (by norm_num)
      _ = ((90000000 : Int) : ℚ) := by norm_num
  have hlo : barcodeMin ≤ generateRandomBarcode r := by
    unfold generateRandomBarcode
    omega
  have hhi : generateRandomBarcode r ≤ barcodeMax := by
    unfold generateRandomBarcode
    unfold barcodeMin barcodeMax at hflub ⊢
    omega
  have hlo' : (10000000 : Int) ≤ generateRandomBarcode r := hlo
  have hhi' : generateRandomBarcode r ≤ (99999999 : Int) := hhi
  have htn : ((generateRandomBarcode r).toNat : Int) = generateRandomBarcode r := by
    omega
  have hnlo : 10 ^ 7 ≤ (generateRandomBarcode r).toNat := by omega
  have hnhi : (generateRandomBarcode r).toNat < 10 ^ 8 := by omega
  have hne : (generateRandomBarcode r).toNat ≠ 0 := by omega
  have hlen : (Nat.digits 10 (generateRandomBarcode r).toNat).length = 8 := by
    rw [Nat.digits_len 10 _ (by norm_num) hne]
    rw [Nat.log_eq_of_pow_le_of_lt_pow hnlo hnhi]
  refine ⟨hlo, hhi, htn, hlen, ?_⟩
  have hnil : Nat.digits 10 (generateRandomBarcode r).toNat ≠ [] :=
    Nat.digits_ne_nil_iff_ne_zero.mpr hne
  rw [List.getLast?_eq_getLast _ hnil]
  intro hcontra
  exact Nat.getLast_digit_ne_zero 10 hne (Option.some.inj hcontra)

/-- Witness for C6: the draw 1/2 produces the candidate 55000000. -/
theorem generateRandomBarcode_range_witness :
    (0 : ℚ) ≤ 1/2 ∧ (1/2 : ℚ) < 1 ∧
    (barcodeMin ≤ generateRandomBarcode (1/2) ∧
     generateRandomBarcode (1/2) ≤ barcodeMax ∧
     ((generateRandomBarcode (1/2)).toNat : Int) = generateRandomBarcode (1/2) ∧
     (Nat.digits 10 (generateRandomBarcode (1/2)).toNat).length = 8 ∧
     (Nat.digits 10 (generateRandomBarcode (1/2)).toNat).getLast? ≠ some 0) :=
  ⟨by norm_num, by norm_num,
   generateRandomBarcode_range (1/2) (by norm_num) (by norm_num)⟩

/-! ### The `action` entry point (`app/routes/app._index.jsx`) -/

/-- JavaScript falsiness of a `formData.get` result (`string | null`):
`null` and the empty string are the only falsy values. -/
def falsy : Option String → Bool
  | none => true
  | some st => st == ""

/-- The value an `action` call returns to its caller. -/
inductive ActionResult where
  | barcodeSuccess (variantId barcode : String)
  | exportSuccess (downloadUrl fileName : String)
  | actionError (msg : String)
deriving DecidableEq, Repr

/-- The ambient context of one `action` call: the shop of the authenticated
session, the fresh `crypto.randomUUID()` value, the server date rendered as
`YYYY-MM-DD` (`new Date().toISOString().split("T")[0]`), the current time
in milliseconds (the `createdAt` of the inserted row), and the outcomes of
the external barcode collaborators (`generateUniqueBarcode` and the
`productVariantsBulkUpdate` userErrors). -/
structure ActionEnv where
  shop : String
  freshToken : String
  dateStr : String
  now : Nat
  barcodeOutcome : Except String String
  updateUserErrors : List String

/-- The export filename: `label-export-${date}.xlsx`. -/
def exportFileName (dateStr : String) : String :=
  "label-export-" ++ dateStr ++ ".xlsx"

/-- The `DownloadToken` row the export branch inserts
(`db.downloadToken.create`). -/
def issuedRow (env : ActionEnv) (d : String) : DownloadToken :=
  { token := env.freshToken, shop := env.shop, data := d,
    fileName := exportFileName env.dateStr, createdAt := env.now }

/-- The `actionType === "generateBarcode"` branch of `action`: validate the
variant/product ids, then run the allocator and the variant update; the
token store is never touched. -/
def barcodeBranch (fd : String → Option String) (env : ActionEnv)
    (s : List DownloadToken) : ActionResult × List DownloadToken :=
  if falsy (fd "variantId") || falsy (fd "productId") then
    (ActionResult.actionError "No variant ID or product ID provided", s)
  else
    match env.barcodeOutcome with
    | Except.error e => (ActionResult.actionError e, s)
    | Except.ok bc =>
        if env.updateUserErrors.isEmpty then
          (ActionResult.barcodeSuccess ((fd "variantId").getD "") bc, s)
        else
          (ActionResult.actionError
            ("Failed to update barcode: " ++
              String.intercalate ", " env.updateUserErrors), s)

/-- The export branch of `action` (the Issue operation): reject a falsy
`exportData`; otherwise mint the token, insert one `DownloadToken` row, and
return the `/download?token=<token>` path with the filename. -/
def exportBranch (fd : String → Option String) (env : ActionEnv)
    (s : List DownloadToken) : ActionResult × List DownloadToken :=
  match fd "exportData" with
  | none => (ActionResult.actionError "No export data provided", s)
  | some d =>
      if d == "" then
        (ActionResult.actionError "No export data provided", s)
      else
        (ActionResult.exportSuccess ("/download?token=" ++ env.freshToken)
          (exportFileName env.dateStr), issuedRow env d :: s)

/-- `action({ request })` from `app/routes/app._index.jsx`: dispatch on
`formData.get("actionType")` — `"generateBarcode"` first, then
`"export"`-or-falsy, else the invalid-action error. -/
def action (fd : String → Option String) (env : ActionEnv)
    (s : List DownloadToken) : ActionResult × List DownloadToken :=
  if fd "actionType" == some "generateBarcode" then
    barcodeBranch fd env s
  else if fd "actionType" == some "export" || falsy (fd "actionType") then
    exportBranch fd env s
  else
    (ActionResult.actionError "Invalid action type", s)

theorem action_export_path (fd : String → Option String) (env : ActionEnv)
    (s : List DownloadToken)
    (hexp : fd "actionType" = some "export" ∨ falsy (fd "actionType") = true) :
    action fd env s = exportBranch fd env s := by
  unfold action
  rcases hexp with h | h
  · simp [h]
  · cases hat : fd "actionType" with
    | none => simp [hat, falsy]
    | some st =>
        rw [hat] at h
        simp [falsy] at h
        subst h
        simp [hat, falsy]

theorem barcodeBranch_fst_ne_export (fd : String → Option String) (env : ActionEnv)
    (s : List DownloadToken) (u f : String) :
    (barcodeBranch fd env s).1 ≠ ActionResult.exportSuccess u f := by
  unfold barcodeBranch
  split
  · simp
  · split
    · simp
    · split <;> simp

theorem action_exportSuccess_fileName (fd : String → Option String) (env : ActionEnv)
    (s : List DownloadToken) (u f : String) (s2 : List DownloadToken)
    (h : action fd env s = (ActionResult.exportSuccess u f, s2)) :
    f = exportFileName env.dateStr := by
  unfold action at h
  split at h
  · exact absurd (congrArg Prod.fst h) (by simpa using barcodeBranch_fst_ne_export fd env s u f)
  · split at h
    · unfold exportBranch at h
      split at h
      · simp at h
      · split at h
        · simp at h
        · have hfst := congrArg Prod.fst h
          simp at hfst
          exact hfst.2.symm
    · simp at h

/-- C9: the export filename is computed entirely server-side from the current
date as `label-export-YYYY-MM-DD.xlsx` — no caller-supplied artifact name
enters it — so any two successful exports with the same server date carry the
identical filename. -/
theorem export_fileName_server_side :
    (∀ (fd : String → Option String) (env : ActionEnv) (s : List DownloadToken)
       (u f : String) (s2 : List DownloadToken),
       action fd env s = (ActionResult.exportSuccess u f, s2) →
       f = "label-export-" ++ env.dateStr ++ ".xlsx") ∧
    (∀ (fd1 : String → Option String) (env1 : ActionEnv) (s1 : List DownloadToken)
       (u1 f1 : String) (t1 : List DownloadToken)
       (fd2 : String → Option String) (env2 : ActionEnv) (s2 : List DownloadToken)
       (u2 f2 : String) (t2 : List DownloadToken),
       action fd1 env1 s1 = (ActionResult.exportSuccess u1 f1, t1) →
       action fd2 env2 s2 = (ActionResult.exportSuccess u2 f2, t2) →
       env1.dateStr = env2.dateStr → f1 = f2) := by
  constructor
  · intro fd env s u f s2 h
    exact action_exportSuccess_fileName fd env s u f s2 h
  · intro fd1 env1 s1 u1 f1 t1 fd2 env2 s2 u2 f2 t2 h1 h2 hdate
    have e1 := action_exportSuccess_fileName fd1 env1 s1 u1 f1 t1 h1
    have e2 := action_exportSuccess_fileName fd2 env2 s2 u2 f2 t2 h2
    rw [e1, e2, exportFileName, exportFileName, hdate]

/-- Witness for C9: a concrete export request (and a second one with a
different caller-supplied artifactName field) on the same server date. -/
theorem export_fileName_server_side_witness :
    action (fun k => if k == "exportData" then some "[]" else none)
        ⟨"shop1", "tok-9", "2026-10-11", 0, Except.error "", []⟩ [] =
      (ActionResult.exportSuccess ("/download?token=" ++ "tok-9")
        (exportFileName "2026-10-11"),
       [issuedRow ⟨"shop1", "tok-9", "2026-10-11", 0, Except.error "", []⟩ "[]"]) ∧
    exportFileName "2026-10-11" = "label-export-" ++ "2026-10-11" ++ ".xlsx" := by
  constructor
  · rfl
  · exact export_fileName_server_side.1
      (fun k => if k == "exportData" then some "[]" else none)
      ⟨"shop1", "tok-9", "2026-10-11", 0, Except.error "", []⟩ [] _ _ _ rfl

/-- C10: a request whose `actionType` is absent or falsy runs the export
branch, exactly as `actionType = "export"` does; any other non-empty
`actionType` besides `"generateBarcode"` yields the invalid-action error
with the token store unchanged. -/
theorem action_dispatch (fd : String → Option String) (env : ActionEnv)
    (s : List DownloadToken) :
    (falsy (fd "actionType") = true → action fd env s = exportBranch fd env s) ∧
    (fd "actionType" = some "export" → action fd env s = exportBranch fd env s) ∧
    (∀ t, fd "actionType" = some t → t ≠ "" → t ≠ "export" → t ≠ "generateBarcode" →
      action fd env s = (ActionResult.actionError "Invalid action type", s)) := by
  refine ⟨fun h => action_export_path fd env s (Or.inr h),
          fun h => action_export_path fd env s (Or.inl h),
          fun t ht hne hnexp hngen => ?_⟩
  unfold action
  rw [ht]
  simp [falsy, hne, hnexp, hngen]

/-- Witness for C10: an absent `actionType` runs the export branch, an
explicit `"export"` does too, and `actionType = "delete"` is rejected with
the store untouched. -/
theorem action_dispatch_witness :
    (action (fun k => if k == "exportData" then some "[]" else none)
        ⟨"s1", "t1", "2026-10-11", 0, Except.error "", []⟩ [] =
      exportBranch (fun k => if k == "exportData" then some "[]" else none)
        ⟨"s1", "t1", "2026-10-11", 0, Except.error "", []⟩ []) ∧
    (action (fun k => if k == "actionType" then some "export" else some "[]")
        ⟨"s1", "t1", "2026-10-11", 0, Except.error "", []⟩ [] =
      exportBranch (fun k => if k == "actionType" then some "export" else some "[]")
        ⟨"s1", "t1", "2026-10-11", 0, Except.error "", []⟩ []) ∧
    (action (fun k => if k == "actionType" then some "delete" else some "[]")
        ⟨"s1", "t1", "2026-10-11", 0, Except.error "", []⟩ [] =
      (ActionResult.actionError "Invalid action type", [])) :=
  ⟨(action_dispatch (fun k => if k == "exportData" then some "[]" else none)
      ⟨"s1", "t1", "2026-10-11", 0, Except.error "", []⟩ []).1 rfl,
   (action_dispatch (fun k => if k == "actionType" then some "export" else some "[]")
      ⟨"s1", "t1", "2026-10-11", 0, Except.error "", []⟩ []).2.1 rfl,
   (action_dispatch (fun k => if k == "actionType" then some "delete" else some "[]")
      ⟨"s1", "t1", "2026-10-11", 0, Except.error "", []⟩ []).2.2 "delete" rfl
      (by decide) (by decide) (by decide)⟩

/-- C7: on the export path, a missing or empty payload fails with the
validation error and leaves the store unchanged, while a non-empty payload
inserts exactly one row and returns the `/download?token=<token>` path. -/
theorem issue_validation_and_single_insert (fd : String → Option String)
    (env : ActionEnv) (s : List DownloadToken)
    (hexp : fd "actionType" = some "export" ∨ falsy (fd "actionType") = true) :
    (falsy (fd "exportData") = true →
      action fd env s = (ActionResult.actionError "No export data provided", s)) ∧
    (∀ d, fd "exportData" = some d → d ≠ "" →
      action fd env s =
        (ActionResult.exportSuccess ("/download?token=" ++ env.freshToken)
          (exportFileName env.dateStr), issuedRow env d :: s)) := by
  rw [action_export_path fd env s hexp]
  constructor
  · intro h
    unfold exportBranch
    cases hd : fd "exportData" with
    | none => rfl
    | some d =>
        rw [hd] at h
        simp [falsy] at h
        simp [h]
  · intro d hd hne
    unfold exportBranch
    rw [hd]
    simp [hne]

/-- Witness for C7: an empty-payload request is rejected without touching the
store; a non-empty one inserts one row and returns the retrieval path. -/
theorem issue_validation_and_single_insert_witness :
    (action (fun k => if k == "exportData" then some "" else none)
        ⟨"s1", "t7", "2026-10-11", 0, Except.error "", []⟩ [] =
      (ActionResult.actionError "No export data provided", [])) ∧
    (action (fun k => if k == "exportData" then some "[1]" else none)
        ⟨"s1", "t7", "2026-10-11", 0, Except.error "", []⟩ [] =
      (ActionResult.exportSuccess ("/download?token=" ++ "t7")
        (exportFileName "2026-10-11"),
       [issuedRow ⟨"s1", "t7", "2026-10-11", 0, Except.error "", []⟩ "[1]"])) :=
  ⟨(issue_validation_and_single_insert
      (fun k => if k == "exportData" then some "" else none)
      ⟨"s1", "t7", "2026-10-11", 0, Except.error "", []⟩ [] (Or.inr rfl)).1 rfl,
   (issue_validation_and_single_insert
      (fun k => if k == "exportData" then some "[1]" else none)
      ⟨"s1", "t7", "2026-10-11", 0, Except.error "", []⟩ [] (Or.inr rfl)).2
      "[1]" rfl (by decide)⟩

/-- C2: Issue followed immediately by Redeem of the returned token yields
exactly the stored payload and filename (round-trip identity); the filename
the redemption serves equals the one Issue returned. -/
theorem issue_then_redeem_roundtrip (fd : String → Option String)
    (env : ActionEnv) (s : List DownloadToken) (d : String) (now2 : Nat)
    (hshop : env.shop ≠ "")
    (hexp : fd "actionType" = some "export" ∨ falsy (fd "actionType") = true)
    (hd : fd "exportData" = some d) (hne : d ≠ "")
    (hage : now2 - env.now ≤ expiryMs) :
    (action fd env s).1 =
      ActionResult.exportSuccess ("/download?token=" ++ env.freshToken)
        (exportFileName env.dateStr) ∧
    (redeem (action fd env s).2 env.freshToken now2).1 =
      Except.ok (d, exportFileName env.dateStr) := by
  have hact := (issue_validation_and_single_insert fd env s hexp).2 d hd hne
  rw [hact]
  refine ⟨rfl, ?_⟩
  have hfind : findToken (issuedRow env d :: s) env.freshToken =
      some (issuedRow env d) := by
    simp [findToken, List.find?, issuedRow]
  have hnotexp : ¬ expiryMs < now2 - (issuedRow env d).createdAt := by
    simp only [issuedRow]
    omega
  have hred : redeem (issuedRow env d :: s) env.freshToken now2 =
      (Except.ok ((issuedRow env d).data, (issuedRow env d).fileName),
        deleteToken (issuedRow env d :: s) env.freshToken) := by
    unfold redeem
    rw [hfind]
    exact if_neg hnotexp
  rw [hred]
  simp [issuedRow]

/-- Witness for C2: a concrete issue at time 0 redeemed at time 60000
(one minute later) returns the original payload and filename. -/
theorem issue_then_redeem_roundtrip_witness :
    (action (fun k => if k == "exportData" then some "[2]" else none)
        ⟨"shop2", "t2r", "2026-10-11", 0, Except.error "", []⟩ []).1 =
      ActionResult.exportSuccess ("/download?token=" ++ "t2r")
        (exportFileName "2026-10-11") ∧
    (redeem (action (fun k => if k == "exportData" then some "[2]" else none)
        ⟨"shop2", "t2r", "2026-10-11", 0, Except.error "", []⟩ []).2 "t2r" 60000).1 =
      Except.ok ("[2]", exportFileName "2026-10-11") :=
  issue_then_redeem_roundtrip
    (fun k => if k == "exportData" then some "[2]" else none)
    ⟨"shop2", "t2r", "2026-10-11", 0, Except.error "", []⟩ [] "[2]" 60000
    (by decide) (Or.inr rfl) rfl (by decide) (by decide)

end LabelExporter
